import Mathlib

/-!
Shallow embedding of the amplify-backend repository (Go): a Google-Drive
folder pipeline.  The remote Drive state is modelled as a list of file
records; each remote call that can fail at the transport layer takes an
explicit Boolean flag (true = the call reaches the server and succeeds
transport-wise).  Byte content of files is not tracked: no claim concerns
it.  Sources:
  - src/unnamed/part_001  (push-triggered Mover: handleRequest, moveFile)
  - src/unnamed/part_000  (CloudEvent Mover: AmplifyFunction, checked moveFile)
  - src/amplify-cloud-function/amplify.go (HTTP Mover: AmplifyFunction, moveFile)
  - src/amplify-watcher/main.go (poll + push Watcher)
  - src/amplify-watcher/watcher.go (startup env checks, relay push handler)
-/

namespace Amplify

/-- a Drive file record: identifier, display name, MIME type, parent folder
identifiers, and the two RFC3339 timestamps (modelled as parsed seconds;
`none` = a timestamp string that fails to parse). -/
structure DriveFile where
  id : String
  name : String
  mimeType : String
  parents : List String
  createdTime : Option Int
  modifiedTime : Option Int
deriving DecidableEq, Repr

/-- the remote Drive state: the set of live file records. -/
abbrev DriveState := List DriveFile

/-- Files.Get by identifier (field selection does not change the model). -/
def findFile (st : DriveState) (fileID : String) : Option DriveFile :=
  st.find? (fun f => f.id = fileID)

/-- the parent list of a file, when the file exists. -/
def fileParents (st : DriveState) (fileID : String) : Option (List String) :=
  (findFile st fileID).map (fun f => f.parents)

/-- the Drive server semantics of Update(..).RemoveParents(rp).AddParents(ap):
parents form a set, so rp is removed and ap is added when absent. -/
def driveMovedParents (parents : List String) (rp ap : String) : List String :=
  let ps := parents.filter (fun q => decide (q ≠ rp))
  if ap ∈ ps then ps else ps ++ [ap]

/-- the effect on the Drive state of Files.Update(fileID).RemoveParents(rp).AddParents(ap). -/
def filesUpdateCall (st : DriveState) (fileID rp ap : String) : DriveState :=
  st.map (fun f =>
    if f.id = fileID then { f with parents := driveMovedParents f.parents rp ap } else f)

/-- a server-chosen identifier for a newly created file. -/
def freshId (st : DriveState) : String := "created-" ++ toString st.length

/-- the effect of Files.Create with the given name and parent list. -/
def filesCreateCall (st : DriveState) (name : String) (parents : List String) : DriveState :=
  st ++ [⟨freshId st, name, "", parents, none, none⟩]

/-- files matching the query "FOLDER in parents". -/
def filesInFolder (st : DriveState) (folderID : String) : List DriveFile :=
  st.filter (fun f => decide (folderID ∈ f.parents))

/-- outcome of a Go function that can return normally, return an error value,
or panic (runtime error such as an out-of-range index). -/
inductive MoveResult where
  | ok
  | err (msg : String)
  | panicked (msg : String)
deriving DecidableEq, Repr

/-- moveFile of src/unnamed/part_001 lines 47-62 and
src/amplify-cloud-function/amplify.go lines 42-53: Get the parents, then
Update removing previousParents[0] and adding folderID.  There is no check
for an empty parent list, so previousParents[0] panics when it is empty;
the panic happens while the Update call is being built, before any request
is issued, so the state is unchanged.  g, u: transport success of the Get
and of the Update. -/
def moveFile (g u : Bool) (fileID folderID : String) (st : DriveState) :
    MoveResult × DriveState :=
  if g then
    match findFile st fileID with
    | none => (.err ("unable to retrieve file " ++ fileID), st)
    | some file =>
      match file.parents with
      | [] => (.panicked "runtime error: index out of range", st)
      | p :: _ =>
        if u then (.ok, filesUpdateCall st fileID p folderID)
        else (.err ("unable to move file " ++ fileID ++ " to folder " ++ folderID), st)
  else (.err ("unable to retrieve file " ++ fileID), st)

/-- moveFile of src/unnamed/part_000 lines 47-63: same as `moveFile` but it
returns the error "file F does not have any parents" when the parent list is
empty, before building the Update call. -/
def moveFileChecked (g u : Bool) (fileID folderID : String) (st : DriveState) :
    Except String Unit × DriveState :=
  if g then
    match findFile st fileID with
    | none => (.error ("unable to retrieve file " ++ fileID), st)
    | some file =>
      match file.parents with
      | [] => (.error ("file " ++ fileID ++ " does not have any parents"), st)
      | p :: _ =>
        if u then (.ok (), filesUpdateCall st fileID p folderID)
        else (.error ("unable to move file " ++ fileID ++ " to folder " ++ folderID), st)
  else (.error ("unable to retrieve file " ++ fileID), st)

/-- processFile of src/unnamed/part_001 lines 38-44 and part_000 lines 41-45:
sleep two seconds, log, return nil.  It never fails. -/
def processFile (_fileID : String) : Except String Unit := Except.ok ()

/-- processData of src/amplify-cloud-function/amplify.go lines 36-40: a
byte-identity passthrough that never fails.  File bytes are not tracked by
the model; the empty list stands for the downloaded content. -/
def processData (data : List Nat) : Except String (List Nat) := Except.ok data

/-- configuration of the push-triggered Mover (src/unnamed/part_001):
TEMP_FOLDER_ID and OUTPUT_FOLDER_ID. -/
structure MoverEnv where
  tempFolderId : String
  outputFolderId : String
deriving DecidableEq, Repr

/-- decoded request body of the push-triggered Mover: `bad` is a body that
fails JSON decoding, `msg d` is a decoded PubSubMessage whose Data field is d
(the file identifier). -/
inductive ReqBody where
  | bad
  | msg (data : String)
deriving DecidableEq, Repr

/-- transport outcomes of the four remote calls handleRequest can issue: the
Get and the Update inside each of its two moveFile calls. -/
structure MoverFaults where
  get1 : Bool
  upd1 : Bool
  get2 : Bool
  upd2 : Bool
deriving DecidableEq, Repr

/-- what the HTTP client observes from one handleRequest invocation: either a
response written with a status and message body (http.Error and Fprintln both
append a newline, which the model leaves off uniformly), or a handler panic,
in which case no response body is produced. -/
inductive HandlerResult where
  | resp (status : Nat) (body : String)
  | panicked (msg : String)
deriving DecidableEq, Repr

/-- handleRequest of src/unnamed/part_001 lines 65-106: decode the body, check
the two folder ids are configured, move to the temp folder, process, move to
the output folder.  There is no check that the file is in any input folder. -/
def handleRequest (f : MoverFaults) (env : MoverEnv) (req : ReqBody)
    (st : DriveState) : HandlerResult × DriveState :=
  match req with
  | .bad => (.resp 400 "Bad Request", st)
  | .msg fileID =>
    if env.tempFolderId = "" ∨ env.outputFolderId = "" then
      (.resp 500 "Folder IDs are not set", st)
    else
      match moveFile f.get1 f.upd1 fileID env.tempFolderId st with
      | (.panicked m, st1) => (.panicked m, st1)
      | (.err e, st1) => (.resp 500 ("Failed to move file to temp folder: " ++ e), st1)
      | (.ok, st1) =>
        match processFile fileID with
        | .error e => (.resp 500 ("Failed to process file: " ++ e), st1)
        | .ok _ =>
          match moveFile f.get2 f.upd2 fileID env.outputFolderId st1 with
          | (.panicked m, st2) => (.panicked m, st2)
          | (.err e, st2) =>
            (.resp 500 ("Failed to move file to output folder: " ++ e), st2)
          | (.ok, st2) => (.resp 200 "File processed successfully", st2)

/-- actions of a program at startup, in order: issuing the Files.Watch call
and entering the HTTP serve loop. -/
inductive StartAction where
  | watchCall
  | serve
deriving DecidableEq, Repr

/-- main of src/unnamed/part_001 lines 109-117: it reads only PORT (defaulting
to 8080) and serves.  The folder configuration is never inspected at startup;
`Except.error` would model a fatal log.Fatal exit, which this main never
takes before serving. -/
def moverMain (_env : MoverEnv) (_port : String) : Except String (List StartAction) :=
  Except.ok [StartAction.serve]

/-- configuration of the two AmplifyFunction variants: INPUT_FOLDER_ID,
TEMP_FOLDER_ID and OUTPUT_FOLDER_ID.  DRIVE_ID of part_000 only toggles the
SupportsAllDrives request option and is behaviourally inert in the model. -/
structure PipelineEnv where
  inputFolderId : String
  tempFolderId : String
  outputFolderId : String
deriving DecidableEq, Repr

/-- transport outcomes of the remote calls of amplify.go AmplifyFunction:
metadata Get, moveFile Get, moveFile Update, content download, local /tmp
write, and output Create. -/
structure CfFaults where
  get : Bool
  mget : Bool
  mupd : Bool
  dl : Bool
  wr : Bool
  cr : Bool
deriving DecidableEq, Repr

/-- AmplifyFunction of src/amplify-cloud-function/amplify.go lines 56-144:
decode the message, check the three folder ids, Get the file metadata, reject
when the Input folder is not among its parents, move to the temp folder with
the unchecked moveFile, download, process, write a /tmp copy, and Create a
new file with the same name under the Output folder.  The original file is
never moved out of the temp folder. -/
def amplifyFunction (f : CfFaults) (env : PipelineEnv) (e : ReqBody)
    (st : DriveState) : MoveResult × DriveState :=
  match e with
  | .bad => (.err "Error parsing PubSub message", st)
  | .msg fileID =>
    if env.inputFolderId = "" ∨ env.tempFolderId = "" ∨ env.outputFolderId = "" then
      (.err "Folder IDs are not set", st)
    else if f.get then
      match findFile st fileID with
      | none => (.err "Failed to get file metadata", st)
      | some file =>
        if env.inputFolderId ∈ file.parents then
          match moveFile f.mget f.mupd fileID env.tempFolderId st with
          | (.panicked m, st1) => (.panicked m, st1)
          | (.err e, st1) => (.err e, st1)
          | (.ok, st1) =>
            if f.dl then
              match processData [] with
              | .error e => (.err e, st1)
              | .ok _ =>
                if f.wr then
                  if f.cr then (.ok, filesCreateCall st1 file.name [env.outputFolderId])
                  else (.err "Failed to upload processed file", st1)
                else (.err "Failed to write processed data to temporary file", st1)
            else (.err "Failed to download file", st1)
        else (.err "file is not in the input folder", st)
    else (.err "Failed to get file metadata", st)

/-- transport outcomes of the remote calls of part_000 AmplifyFunction: the
input-folder listing, the metadata Get, the checked moveFile Get and Update,
the content download, and the output Create. -/
structure EventFaults where
  list : Bool
  get : Bool
  mget : Bool
  mupd : Bool
  dl : Bool
  cr : Bool
deriving DecidableEq, Repr

/-- AmplifyFunction of src/unnamed/part_000 lines 83-189 (CloudEvent
variant): decode the enveloped message (`bad` collapses the three decode
failure points), check the three folder ids, list the input folder (a
read-only step whose failure aborts the run), Get the file metadata, reject
when the Input folder is not among its parents, move to the temp folder with
the checked moveFile, process, download, and Create a new file with the same
name under the Output folder.  The original file stays in the temp folder. -/
def amplifyFunctionEvent (f : EventFaults) (env : PipelineEnv) (e : ReqBody)
    (st : DriveState) : Except String Unit × DriveState :=
  match e with
  | .bad => (.error "Failed to unmarshal event data", st)
  | .msg fileID =>
    if env.inputFolderId = "" ∨ env.tempFolderId = "" ∨ env.outputFolderId = "" then
      (.error "Folder IDs are not set", st)
    else if f.list then
      if f.get then
        match findFile st fileID with
        | none => (.error "Failed to get file metadata", st)
        | some file =>
          if env.inputFolderId ∈ file.parents then
            match moveFileChecked f.mget f.mupd fileID env.tempFolderId st with
            | (.error e, st1) => (.error ("Failed to move file to temp folder: " ++ e), st1)
            | (.ok _, st1) =>
              match processFile fileID with
              | .error e => (.error ("Failed to process file: " ++ e), st1)
              | .ok _ =>
                if f.dl then
                  if f.cr then (.ok (), filesCreateCall st1 file.name [env.outputFolderId])
                  else (.error "Failed to create file in output folder", st1)
                else (.error "Failed to download file", st1)
          else (.error "File is not in the input folder", st)
      else (.error "Failed to get file metadata", st)
    else (.error "Failed to list files", st)

/-- configuration of the Watcher (src/amplify-watcher/watcher.go lines 24-27):
DRIVE_FOLDER_ID, PUBSUB_TOPIC, CHANNEL_ID and WEBHOOK_URL. -/
structure WatcherEnv where
  driveFolderId : String
  pubsubTopic : String
  channelId : String
  webhookUrl : String
deriving DecidableEq, Repr

/-- main of src/amplify-watcher/watcher.go lines 14-62: build the Drive
client (fatal on failure), check the four environment variables (fatal when
any is empty, before the Files.Watch call), set up the watch (fatal on
failure), then serve.  `Except.error` models a log.Fatal exit; the `ok` value
lists the startup actions in order. -/
def watcherMain (clientOk : Bool) (env : WatcherEnv) (watchOk : Bool) :
    Except String (List StartAction) :=
  if clientOk then
    if env.driveFolderId = "" ∨ env.pubsubTopic = "" ∨ env.channelId = ""
        ∨ env.webhookUrl = "" then
      .error "Environment variables DRIVE_FOLDER_ID, PUBSUB_TOPIC, CHANNEL_ID, and WEBHOOK_URL must be set"
    else if watchOk then .ok [StartAction.watchCall, StartAction.serve]
    else .error "Unable to set up watch"
  else .error "Unable to retrieve Drive client"

/-- the payload the Watcher relays for one observed file: name and
identifier (FileInfo in main.go lines 25-28 and watcher.go lines 134-137). -/
structure FileInfo where
  fileName : String
  resourceId : String
deriving DecidableEq, Repr

/-- one remote API call, as named in the trace a handler emits.  Only
filesUpdate and filesCreate mutate the Drive state. -/
inductive ApiCall where
  | filesGet (fileID : String)
  | filesList (folderID : String)
  | filesUpdate (fileID rp ap : String)
  | filesDownload (fileID : String)
  | filesCreate (name : String) (parents : List String)
  | publish (info : FileInfo)
  | httpPost (url : String) (info : FileInfo)
deriving DecidableEq, Repr

/-- the effect of one API call on the Drive state. -/
def applyCall (st : DriveState) : ApiCall → DriveState
  | .filesUpdate fileID rp ap => filesUpdateCall st fileID rp ap
  | .filesCreate name parents => filesCreateCall st name parents
  | _ => st

/-- the effect of a trace of API calls on the Drive state. -/
def applyTrace (st : DriveState) (tr : List ApiCall) : DriveState :=
  tr.foldl applyCall st

/-- decoded body of a push notification delivered to a Watcher handler:
`bad` is a body that fails reading or JSON decoding, `notif rid` carries the
resourceId of the changed file. -/
inductive PushReq where
  | bad
  | notif (resourceId : String)
deriving DecidableEq, Repr

/-- a plain HTTP response: status and message body. -/
structure HttpResponse where
  status : Nat
  body : String
deriving DecidableEq, Repr

/-- the push handler of src/amplify-watcher/watcher.go lines 194-249: decode
the notification, Get the file name, relay {name, resourceId} to the webhook
with an HTTP POST, and report the outcome.  getOk and postOk are the
transport outcomes of the Get and the POST; postStatus is the status the
webhook returns.  The handler only reads metadata and posts. -/
def relayHandler (getOk postOk : Bool) (postStatus : Nat) (webhookURL : String)
    (req : PushReq) (st : DriveState) : HttpResponse × List ApiCall :=
  match req with
  | .bad => (⟨400, "Unable to parse request body"⟩, [])
  | .notif rid =>
    if getOk then
      match findFile st rid with
      | none => (⟨500, "Unable to retrieve file metadata"⟩, [.filesGet rid])
      | some file =>
        let info : FileInfo := ⟨file.name, rid⟩
        if postOk then
          if postStatus = 200 then
            (⟨200, "Notification received and processed."⟩,
              [.filesGet rid, .httpPost webhookURL info])
          else
            (⟨500, "Non-OK HTTP status from webhook"⟩,
              [.filesGet rid, .httpPost webhookURL info])
        else (⟨500, "Unable to send file info to webhook"⟩,
          [.filesGet rid, .httpPost webhookURL info])
    else (⟨500, "Unable to retrieve file metadata"⟩, [.filesGet rid])

/-- the two Word-document MIME types accepted by the Pub/Sub watcher variant
(src/amplify-watcher/main.go line 142). -/
def wordMimeTypes : List String :=
  ["application/vnd.openxmlformats-officedocument.wordprocessingml.document",
   "application/msword"]

/-- the push handler of src/amplify-watcher/main.go lines 103-172: decode the
notification, Get the file metadata, return without publishing when the MIME
type is not a Word document (the handler writes no body, so the implicit
response is 200 with an empty body), otherwise publish {name, resourceId} to
the topic.  A publish delivery failure is only logged, so the response is 200
either way.  The handler only reads metadata and publishes. -/
def mainPushHandler (getOk : Bool) (req : PushReq) (st : DriveState) :
    HttpResponse × List ApiCall :=
  match req with
  | .bad => (⟨400, "Unable to parse request body"⟩, [])
  | .notif rid =>
    if getOk then
      match findFile st rid with
      | none => (⟨500, "Unable to retrieve file metadata"⟩, [.filesGet rid])
      | some file =>
        if file.mimeType ∈ wordMimeTypes then
          (⟨200, "Notification received and processed."⟩,
            [.filesGet rid, .publish ⟨file.name, rid⟩])
        else (⟨200, ""⟩, [.filesGet rid])
    else (⟨500, "Unable to retrieve file metadata"⟩, [.filesGet rid])

/-- the recency test of src/amplify-watcher/main.go lines 202-214: both
timestamps must parse, and the file qualifies when time.Since(created) or
time.Since(modified) is at most five seconds. -/
def fileRecent (now : Int) (f : DriveFile) : Bool :=
  match f.createdTime, f.modifiedTime with
  | some c, some m => decide (now - c ≤ 5) || decide (now - m ≤ 5)
  | _, _ => false

/-- the body of the per-file loop of listFiles (main.go lines 198-245): parse
the timestamps (skip the file when either fails), and publish {name, id} to
the topic when the file is recent. -/
def scanFile (now : Int) (f : DriveFile) : List ApiCall :=
  if fileRecent now f then [.publish ⟨f.name, f.id⟩] else []

/-- listFiles of src/amplify-watcher/main.go lines 189-246: one poll-scan
iteration.  List the files whose parent is the monitored folder (listOk is
the transport outcome; on failure the scan returns after the List call), then
run the per-file loop.  The scan only lists metadata and publishes. -/
def listFiles (listOk : Bool) (now : Int) (folderID : String)
    (st : DriveState) : List ApiCall :=
  ApiCall.filesList folderID ::
    (if listOk then (filesInFolder st folderID).flatMap (scanFile now) else [])

/-- the notifications published in a trace. -/
def notificationsOf (tr : List ApiCall) : List FileInfo :=
  tr.filterMap (fun c =>
    match c with
    | .publish info => some info
    | _ => none)

/-! Helper lemmas about the Drive primitives. -/

lemma fileParents_some_inv {st : DriveState} {fid : String} {ps : List String}
    (h : fileParents st fid = some ps) :
    ∃ file, findFile st fid = some file ∧ file.parents = ps := by
  unfold fileParents at h
  cases hf : findFile st fid with
  | none => rw [hf] at h; simp at h
  | some file =>
    rw [hf] at h
    simp at h
    exact ⟨file, rfl, h⟩

lemma findFile_filesUpdateCall (st : DriveState) (fid rp ap : String) :
    findFile (filesUpdateCall st fid rp ap) fid =
      (findFile st fid).map
        (fun f => { f with parents := driveMovedParents f.parents rp ap }) := by
  induction st with
  | nil => rfl
  | cons f fs ih =>
    by_cases h : f.id = fid
    · simp [findFile, filesUpdateCall, List.find?_cons, h]
    · simp only [findFile, filesUpdateCall, List.map_cons, if_neg h] at ih ⊢
      rw [List.find?_cons_of_neg, List.find?_cons_of_neg]
      · exact ih
      · simp [h]
      · simp [h]

lemma fileParents_filesUpdateCall (st : DriveState) (fid rp ap : String) :
    fileParents (filesUpdateCall st fid rp ap) fid =
      (fileParents st fid).map (fun ps => driveMovedParents ps rp ap) := by
  unfold fileParents
  rw [findFile_filesUpdateCall]
  cases findFile st fid <;> rfl

lemma driveMovedParents_ne_nil (ps : List String) (rp ap : String) :
    driveMovedParents ps rp ap ≠ [] := by
  unfold driveMovedParents
  by_cases h : ap ∈ ps.filter (fun q => decide (q ≠ rp))
  · simp only [if_pos h]
    exact List.ne_nil_of_mem h
  · simp only [if_neg h]
    intro hc
    have h2 := List.append_eq_nil.mp hc
    simp at h2

lemma filter_ne_cons_self {p : String} {ps : List String} (hp : p ∉ ps) :
    (p :: ps).filter (fun q => decide (q ≠ p)) = ps := by
  have h1 : (p :: ps).filter (fun q => decide (q ≠ p)) =
      ps.filter (fun q => decide (q ≠ p)) := by
    simp [List.filter_cons]
  rw [h1]
  apply List.filter_eq_self.mpr
  intro a ha
  simp only [decide_eq_true_eq, ne_eq]
  intro hap
  exact hp (hap ▸ ha)

lemma driveMovedParents_cons {p tgt : String} {ps : List String}
    (hp : p ∉ ps) (ht : tgt ∉ p :: ps) :
    driveMovedParents (p :: ps) p tgt = ps ++ [tgt] := by
  unfold driveMovedParents
  rw [filter_ne_cons_self hp, if_neg (fun hmem => ht (List.mem_cons_of_mem p hmem))]

lemma driveMovedParents_single (p tgt : String) :
    driveMovedParents [p] p tgt = [tgt] := by
  unfold driveMovedParents
  simp

lemma moveFile_ok_inv {g u : Bool} {fid tgt : String} {st st' : DriveState}
    (h : moveFile g u fid tgt st = (MoveResult.ok, st')) :
    g = true ∧ u = true ∧ ∃ file p rest, findFile st fid = some file ∧
      file.parents = p :: rest ∧ st' = filesUpdateCall st fid p tgt := by
  unfold moveFile at h
  split at h
  next hg =>
    split at h
    next heq => simp at h
    next file heq =>
      split at h
      next hpar => simp at h
      next p rest hpar =>
        split at h
        next hu =>
          simp only [Prod.mk.injEq] at h
          exact ⟨hg, hu, file, p, rest, heq, hpar, h.2.symm⟩
        next hu => simp at h
  next hg => simp at h

lemma moveFile_panicked_inv {g u : Bool} {fid tgt m : String} {st st' : DriveState}
    (h : moveFile g u fid tgt st = (MoveResult.panicked m, st')) :
    st' = st ∧ ∃ file, findFile st fid = some file ∧ file.parents = [] := by
  unfold moveFile at h
  split at h
  next hg =>
    split at h
    next heq => simp at h
    next file heq =>
      split at h
      next hpar =>
        simp only [Prod.mk.injEq] at h
        exact ⟨h.2.symm, file, heq, hpar⟩
      next p rest hpar =>
        split at h
        next hu => simp at h
        next hu => simp at h
  next hg => simp at h

lemma moveFile_err_inv {g u : Bool} {fid tgt m : String} {st st' : DriveState}
    (h : moveFile g u fid tgt st = (MoveResult.err m, st')) : st' = st := by
  unfold moveFile at h
  split at h
  next hg =>
    split at h
    next heq =>
      simp only [Prod.mk.injEq] at h
      exact h.2.symm
    next file heq =>
      split at h
      next hpar => simp at h
      next p rest hpar =>
        split at h
        next hu => simp at h
        next hu =>
          simp only [Prod.mk.injEq] at h
          exact h.2.symm
  next hg =>
    simp only [Prod.mk.injEq] at h
    exact h.2.symm

lemma moveFile_fail_of_flags {g u : Bool} {fid : String} (tgt : String)
    {st : DriveState} {file : DriveFile} (hflag : g = false ∨ u = false)
    (hf : findFile st fid = some file) (hpar : file.parents ≠ []) :
    ∃ m, moveFile g u fid tgt st = (MoveResult.err m, st) := by
  cases g with
  | false =>
    refine ⟨"unable to retrieve file " ++ fid, ?_⟩
    simp [moveFile]
  | true =>
    have hu : u = false := by
      rcases hflag with h | h
      · exact absurd h (by simp)
      · exact h
    subst hu
    cases hps : file.parents with
    | nil => exact absurd hps hpar
    | cons p rest =>
      refine ⟨"unable to move file " ++ fid ++ " to folder " ++ tgt, ?_⟩
      simp [moveFile, hf, hps]

lemma moveFileChecked_ok_inv {g u : Bool} {fid tgt : String} {st st' : DriveState}
    (h : moveFileChecked g u fid tgt st = (Except.ok (), st')) :
    g = true ∧ u = true ∧ ∃ file p rest, findFile st fid = some file ∧
      file.parents = p :: rest ∧ st' = filesUpdateCall st fid p tgt := by
  unfold moveFileChecked at h
  split at h
  next hg =>
    split at h
    next heq => simp at h
    next file heq =>
      split at h
      next hpar => simp at h
      next p rest hpar =>
        split at h
        next hu =>
          simp only [Prod.mk.injEq] at h
          exact ⟨hg, hu, file, p, rest, heq, hpar, h.2.symm⟩
        next hu => simp at h
  next hg => simp at h

lemma moveFile_ok_single {g u : Bool} {fid tgt p : String} {st st' : DriveState}
    (hp : fileParents st fid = some [p])
    (h : moveFile g u fid tgt st = (MoveResult.ok, st')) :
    fileParents st' fid = some [tgt] := by
  obtain ⟨-, -, file, q, rest, hf, hpar, hst⟩ := moveFile_ok_inv h
  obtain ⟨file0, hf0, hpar0⟩ := fileParents_some_inv hp
  rw [hf] at hf0
  injection hf0 with hfe
  subst hfe
  rw [hpar] at hpar0
  injection hpar0 with hq hrest
  subst hq hrest hst
  rw [fileParents_filesUpdateCall, hp]
  simp [driveMovedParents_single]

lemma moveFileChecked_ok_single {g u : Bool} {fid tgt p : String} {st st' : DriveState}
    (hp : fileParents st fid = some [p])
    (h : moveFileChecked g u fid tgt st = (Except.ok (), st')) :
    fileParents st' fid = some [tgt] := by
  obtain ⟨-, -, file, q, rest, hf, hpar, hst⟩ := moveFileChecked_ok_inv h
  obtain ⟨file0, hf0, hpar0⟩ := fileParents_some_inv hp
  rw [hf] at hf0
  injection hf0 with hfe
  subst hfe
  rw [hpar] at hpar0
  injection hpar0 with hq hrest
  subst hq hrest hst
  rw [fileParents_filesUpdateCall, hp]
  simp [driveMovedParents_single]

lemma findFile_filesCreateCall_of_found {st : DriveState} {fid : String}
    {f : DriveFile} (h : findFile st fid = some f) (name : String)
    (ps : List String) :
    findFile (filesCreateCall st name ps) fid = some f := by
  unfold filesCreateCall findFile
  unfold findFile at h
  rw [List.find?_append, h]
  rfl

/-! Claim theorems. -/

/-- Claim C2, counterexample: the claim says a moveFile on a file with an
empty parent list fails with an error.  The moveFile shared by part_001 and
amplify.go instead panics with an index-out-of-range runtime error while
building the Update call (previousParents[0] on an empty slice); the state is
unchanged but no error value is returned. -/
theorem c2_counterexample :
    moveFile true true "F0" "T" [⟨"F0", "doc", "", [], none, none⟩] =
      (MoveResult.panicked "runtime error: index out of range",
       [⟨"F0", "doc", "", [], none, none⟩]) := by
  rfl

/-- Claim C2, amended: when the file record has an empty parent list, the
checked moveFile of part_000 fails with the error naming the file and makes
no Update call (state unchanged), while the unchecked moveFile of part_001
and amplify.go panics before issuing the Update, so the state is also
unchanged but no error value is returned. -/
theorem c2_amended :
    (∀ (u : Bool) (fid tgt : String) (st : DriveState) (file : DriveFile),
      findFile st fid = some file → file.parents = [] →
      moveFileChecked true u fid tgt st =
        (Except.error ("file " ++ fid ++ " does not have any parents"), st))
    ∧ (∀ (u : Bool) (fid tgt : String) (st : DriveState) (file : DriveFile),
      findFile st fid = some file → file.parents = [] →
      moveFile true u fid tgt st =
        (MoveResult.panicked "runtime error: index out of range", st)) := by
  constructor
  · intro u fid tgt st file hf hp
    simp [moveFileChecked, hf, hp]
  · intro u fid tgt st file hf hp
    simp [moveFile, hf, hp]

/-- Claim C2, witness for the amended theorem at a concrete state. -/
theorem c2_witness :
    findFile [⟨"F0", "doc", "", [], none, none⟩] "F0" =
      some ⟨"F0", "doc", "", [], none, none⟩
    ∧ (⟨"F0", "doc", "", [], none, none⟩ : DriveFile).parents = []
    ∧ moveFileChecked true true "F0" "T" [⟨"F0", "doc", "", [], none, none⟩] =
        (Except.error "file F0 does not have any parents",
         [⟨"F0", "doc", "", [], none, none⟩]) :=
  ⟨by rfl, by rfl,
    c2_amended.1 true "F0" "T" [⟨"F0", "doc", "", [], none, none⟩]
      ⟨"F0", "doc", "", [], none, none⟩ (by rfl) (by rfl)⟩

/-- Claim C5: for a file whose parent list is p :: ps (no duplicates, target
not already a parent), a successful moveFile, in both the unchecked and the
checked variant, removes exactly the first parent p, adds the target folder,
and leaves the other parents ps untouched. -/
theorem c5_effect :
    ∀ (fid tgt p : String) (ps : List String) (st : DriveState),
      fileParents st fid = some (p :: ps) →
      (p :: ps).Nodup →
      tgt ∉ p :: ps →
      moveFile true true fid tgt st = (MoveResult.ok, filesUpdateCall st fid p tgt)
      ∧ moveFileChecked true true fid tgt st =
          (Except.ok (), filesUpdateCall st fid p tgt)
      ∧ fileParents (filesUpdateCall st fid p tgt) fid = some (ps ++ [tgt]) := by
  intro fid tgt p ps st hp hnd ht
  obtain ⟨file, hf, hpar⟩ := fileParents_some_inv hp
  refine ⟨?_, ?_, ?_⟩
  · simp [moveFile, hf, hpar]
  · simp [moveFileChecked, hf, hpar]
  · rw [fileParents_filesUpdateCall, hp]
    have hpps : p ∉ ps := (List.nodup_cons.mp hnd).1
    simp [driveMovedParents_cons hpps ht]

/-- Claim C5, witness at a two-parent file: parents [P, Q], target T, final
parents [Q, T]. -/
theorem c5_witness :
    fileParents [⟨"F", "doc", "", ["P", "Q"], none, none⟩] "F" = some ("P" :: ["Q"])
    ∧ ("P" :: ["Q"]).Nodup
    ∧ "T" ∉ "P" :: ["Q"]
    ∧ fileParents
        (filesUpdateCall [⟨"F", "doc", "", ["P", "Q"], none, none⟩] "F" "P" "T") "F"
        = some (["Q"] ++ ["T"]) :=
  ⟨by rfl, by decide, by decide,
    (c5_effect "F" "T" "P" ["Q"] [⟨"F", "doc", "", ["P", "Q"], none, none⟩]
      (by rfl) (by decide) (by decide)).2.2⟩

/-- Claim C3, counterexample: the claim says every pipeline entry point
rejects a file that is not in the Input folder without mutating any parent
list.  handleRequest of part_001 performs no input-folder check at all: a
file with parents [X], with X different from any configured Input folder I,
is moved through the pipeline and the run reports success. -/
theorem c3_counterexample :
    ("I" ∉ (["X"] : List String))
    ∧ handleRequest ⟨true, true, true, true⟩ ⟨"S", "O"⟩ (.msg "F2")
        [⟨"F2", "doc", "", ["X"], none, none⟩] =
      (HandlerResult.resp 200 "File processed successfully",
       [⟨"F2", "doc", "", ["O"], none, none⟩]) := by
  exact ⟨by decide, by rfl⟩

/-- Claim C3, amended: the two AmplifyFunction variants (amplify.go and
part_000) reject a fetched file whose parent set does not include the
configured Input folder with the "not in the input folder" error and leave
the state untouched; the push-triggered handleRequest performs no such check
and moves the file regardless. -/
theorem c3_amended :
    (∀ (f : CfFaults) (env : PipelineEnv) (fid : String) (st : DriveState)
        (file : DriveFile),
      ¬(env.inputFolderId = "" ∨ env.tempFolderId = "" ∨ env.outputFolderId = "") →
      f.get = true →
      findFile st fid = some file →
      env.inputFolderId ∉ file.parents →
      amplifyFunction f env (.msg fid) st =
        (MoveResult.err "file is not in the input folder", st))
    ∧ (∀ (f : EventFaults) (env : PipelineEnv) (fid : String) (st : DriveState)
        (file : DriveFile),
      ¬(env.inputFolderId = "" ∨ env.tempFolderId = "" ∨ env.outputFolderId = "") →
      f.list = true → f.get = true →
      findFile st fid = some file →
      env.inputFolderId ∉ file.parents →
      amplifyFunctionEvent f env (.msg fid) st =
        (Except.error "File is not in the input folder", st)) := by
  constructor
  · intro f env fid st file hne hget hf hmem
    simp [amplifyFunction, hne, hget, hf, hmem]
  · intro f env fid st file hne hlist hget hf hmem
    simp [amplifyFunctionEvent, hne, hlist, hget, hf, hmem]

/-- Claim C3, witness for the amended theorem: amplify.go AmplifyFunction
rejects file F2, whose only parent X is not the Input folder I, and the
state is unchanged. -/
theorem c3_witness :
    ¬(("I" : String) = "" ∨ ("S" : String) = "" ∨ ("O" : String) = "")
    ∧ findFile [⟨"F2", "doc", "", ["X"], none, none⟩] "F2" =
        some ⟨"F2", "doc", "", ["X"], none, none⟩
    ∧ ("I" ∉ (⟨"F2", "doc", "", ["X"], none, none⟩ : DriveFile).parents)
    ∧ amplifyFunction ⟨true, true, true, true, true, true⟩ ⟨"I", "S", "O"⟩ (.msg "F2")
        [⟨"F2", "doc", "", ["X"], none, none⟩] =
      (MoveResult.err "file is not in the input folder",
       [⟨"F2", "doc", "", ["X"], none, none⟩]) :=
  ⟨by decide, by rfl, by decide,
    c3_amended.1 ⟨true, true, true, true, true, true⟩ ⟨"I", "S", "O"⟩ "F2"
      [⟨"F2", "doc", "", ["X"], none, none⟩] ⟨"F2", "doc", "", ["X"], none, none⟩
      (by decide) (by rfl) (by rfl) (by decide)⟩

/-- Claim C6, counterexample: the claim says every program treats a missing
required configuration variable as a fatal startup error and exits before
serving.  The push-triggered Mover of part_001 starts serving without ever
inspecting the folder configuration: with both folder ids empty its main
still enters the serve loop, and an incoming request is answered with a 500
response instead of the process having exited. -/
theorem c6_counterexample :
    moverMain ⟨"", ""⟩ "8080" = Except.ok [StartAction.serve]
    ∧ handleRequest ⟨true, true, true, true⟩ ⟨"", ""⟩ (.msg "F") [] =
        (HandlerResult.resp 500 "Folder IDs are not set", []) := by
  exact ⟨rfl, by rfl⟩

/-- Claim C6, amended: the Watcher main treats any empty required variable as
a fatal startup error, exiting before the watch call and before serving; the
push-triggered Mover instead checks its folder ids per request, answering 500
with no mutation while the process keeps serving. -/
theorem c6_amended :
    (∀ (clientOk watchOk : Bool) (env : WatcherEnv),
      (env.driveFolderId = "" ∨ env.pubsubTopic = "" ∨ env.channelId = ""
        ∨ env.webhookUrl = "") →
      clientOk = true →
      watcherMain clientOk env watchOk = Except.error
        "Environment variables DRIVE_FOLDER_ID, PUBSUB_TOPIC, CHANNEL_ID, and WEBHOOK_URL must be set")
    ∧ (∀ (f : MoverFaults) (env : MoverEnv) (fid port : String) (st : DriveState),
      (env.tempFolderId = "" ∨ env.outputFolderId = "") →
      handleRequest f env (.msg fid) st =
        (HandlerResult.resp 500 "Folder IDs are not set", st)
      ∧ moverMain env port = Except.ok [StartAction.serve]) := by
  constructor
  · intro c w env hempty hc
    simp [watcherMain, hc, hempty]
  · intro f env fid port st hempty
    exact ⟨by simp [handleRequest, hempty], rfl⟩

/-- Claim C6, witness for the amended theorem: the Watcher exits when
PUBSUB_TOPIC is empty; the Mover with an empty TEMP_FOLDER_ID answers 500 and
keeps serving. -/
theorem c6_witness :
    (("folder" : String) = "" ∨ ("" : String) = "" ∨ ("chan" : String) = ""
      ∨ ("http://wh" : String) = "")
    ∧ watcherMain true ⟨"folder", "", "chan", "http://wh"⟩ true = Except.error
        "Environment variables DRIVE_FOLDER_ID, PUBSUB_TOPIC, CHANNEL_ID, and WEBHOOK_URL must be set"
    ∧ (("" : String) = "" ∨ ("O" : String) = "")
    ∧ handleRequest ⟨true, true, true, true⟩ ⟨"", "O"⟩ (.msg "F") [] =
        (HandlerResult.resp 500 "Folder IDs are not set", [])
    ∧ moverMain ⟨"", "O"⟩ "9090" = Except.ok [StartAction.serve] := by
  refine ⟨by decide, ?_, by decide, ?_, ?_⟩
  · exact c6_amended.1 true true ⟨"folder", "", "chan", "http://wh"⟩ (by decide) rfl
  · exact (c6_amended.2 ⟨true, true, true, true⟩ ⟨"", "O"⟩ "F" "9090" [] (by decide)).1
  · exact (c6_amended.2 ⟨true, true, true, true⟩ ⟨"", "O"⟩ "F" "9090" [] (by decide)).2

/-- Claim C4, counterexample: the claim says a run whose temp move succeeds
and whose later step fails leaves the file with parent set exactly the
Staging folder.  For a file with two parents [A, B], the temp move leaves
parents [B, S]; when the output move then fails, the file is stranded with
parents [B, S], not [S]. -/
theorem c4_counterexample :
    handleRequest ⟨true, true, true, false⟩ ⟨"S", "O"⟩ (.msg "F1")
        [⟨"F1", "doc", "", ["A", "B"], none, none⟩] =
      (HandlerResult.resp 500
        "Failed to move file to output folder: unable to move file F1 to folder O",
       [⟨"F1", "doc", "", ["B", "S"], none, none⟩])
    ∧ (["B", "S"] : List String) ≠ ["S"] := by
  exact ⟨by rfl, by decide⟩

/-- Claim C4, amended: for a file whose parent list is a single folder, when
the temp move succeeds and a later remote step fails, the run stops at the
failing step, the error is returned to the caller, and no compensating
mutation happens: the file stays with parent list exactly [Temp].  In
handleRequest the failing later step is the output move (processing cannot
fail); in the CloudEvent AmplifyFunction it is the download or the output
create. -/
theorem c4_amended :
    (∀ (f : MoverFaults) (env : MoverEnv) (fid p : String) (st : DriveState),
      fileParents st fid = some [p] →
      f.get1 = true → f.upd1 = true →
      (f.get2 = false ∨ f.upd2 = false) →
      ¬(env.tempFolderId = "" ∨ env.outputFolderId = "") →
      ∃ m, handleRequest f env (.msg fid) st =
        (HandlerResult.resp 500 ("Failed to move file to output folder: " ++ m),
         filesUpdateCall st fid p env.tempFolderId)
        ∧ fileParents (filesUpdateCall st fid p env.tempFolderId) fid
            = some [env.tempFolderId])
    ∧ (∀ (f : EventFaults) (env : PipelineEnv) (fid : String) (st : DriveState),
      fileParents st fid = some [env.inputFolderId] →
      f.list = true → f.get = true → f.mget = true → f.mupd = true →
      (f.dl = false ∨ (f.dl = true ∧ f.cr = false)) →
      ¬(env.inputFolderId = "" ∨ env.tempFolderId = "" ∨ env.outputFolderId = "") →
      ∃ e, amplifyFunctionEvent f env (.msg fid) st =
        (Except.error e, filesUpdateCall st fid env.inputFolderId env.tempFolderId)
        ∧ fileParents (filesUpdateCall st fid env.inputFolderId env.tempFolderId) fid
            = some [env.tempFolderId]) := by
  constructor
  · intro f env fid p st hp hg1 hu1 hfail hne
    obtain ⟨file, hf, hpar⟩ := fileParents_some_inv hp
    have h1 : moveFile f.get1 f.upd1 fid env.tempFolderId st =
        (MoveResult.ok, filesUpdateCall st fid p env.tempFolderId) := by
      rw [hg1, hu1]
      simp [moveFile, hf, hpar]
    have hp1 : fileParents (filesUpdateCall st fid p env.tempFolderId) fid =
        some [env.tempFolderId] := by
      rw [fileParents_filesUpdateCall, hp]
      simp [driveMovedParents_single]
    obtain ⟨file1, hf1, hpar1⟩ := fileParents_some_inv hp1
    have hpar1ne : file1.parents ≠ [] := by rw [hpar1]; simp
    obtain ⟨m, hm⟩ := moveFile_fail_of_flags env.outputFolderId hfail hf1 hpar1ne
    refine ⟨m, ?_, hp1⟩
    simp [handleRequest, hne, h1, processFile, hm]
  · intro f env fid st hp hlist hget hmget hmupd hfail hne
    obtain ⟨file, hf, hpar⟩ := fileParents_some_inv hp
    have hmem : env.inputFolderId ∈ file.parents := by rw [hpar]; simp
    have h1 : moveFileChecked f.mget f.mupd fid env.tempFolderId st =
        (Except.ok (), filesUpdateCall st fid env.inputFolderId env.tempFolderId) := by
      rw [hmget, hmupd]
      simp [moveFileChecked, hf, hpar]
    have hp1 : fileParents (filesUpdateCall st fid env.inputFolderId env.tempFolderId)
        fid = some [env.tempFolderId] := by
      rw [fileParents_filesUpdateCall, hp]
      simp [driveMovedParents_single]
    rcases hfail with hdl | ⟨hdl, hcr⟩
    · refine ⟨"Failed to download file", ?_, hp1⟩
      simp [amplifyFunctionEvent, hne, hlist, hget, hf, hmem, h1, processFile, hdl]
    · refine ⟨"Failed to create file in output folder", ?_, hp1⟩
      simp [amplifyFunctionEvent, hne, hlist, hget, hf, hmem, h1, processFile, hdl, hcr]

/-- Claim C4, witness for the amended theorem: file F1 with single parent P,
temp move succeeds, output move update fails; F1 ends with parents exactly
[S] and the handler answers 500 naming the output-move failure. -/
theorem c4_witness :
    fileParents [⟨"F1", "doc", "", ["P"], none, none⟩] "F1" = some ["P"]
    ∧ ((false : Bool) = false ∨ (false : Bool) = false)
    ∧ ¬(("S" : String) = "" ∨ ("O" : String) = "")
    ∧ (∃ m, handleRequest ⟨true, true, true, false⟩ ⟨"S", "O"⟩ (.msg "F1")
        [⟨"F1", "doc", "", ["P"], none, none⟩] =
        (HandlerResult.resp 500 ("Failed to move file to output folder: " ++ m),
         filesUpdateCall [⟨"F1", "doc", "", ["P"], none, none⟩] "F1" "P" "S")
        ∧ fileParents
            (filesUpdateCall [⟨"F1", "doc", "", ["P"], none, none⟩] "F1" "P" "S") "F1"
            = some ["S"]) := by
  refine ⟨by rfl, by decide, by decide, ?_⟩
  exact c4_amended.1 ⟨true, true, true, false⟩ ⟨"S", "O"⟩ "F1" "P"
    [⟨"F1", "doc", "", ["P"], none, none⟩] (by rfl) rfl rfl (Or.inr rfl) (by decide)

/-- Claim C1, counterexample: the claim says every successful run leaves the
processed file with parent set exactly the Output folder and never containing
the Input folder.  Two failures: a three-parent file [A, B, I] run through
handleRequest succeeds yet ends with parents [I, S, O], which contains the
Input folder I and is not [O]; and a successful CloudEvent AmplifyFunction
run leaves the original file in the temp folder S (a copy is created under
O), so the processed file's parents are [S], not [O]. -/
theorem c1_counterexample :
    handleRequest ⟨true, true, true, true⟩ ⟨"S", "O"⟩ (.msg "F1")
        [⟨"F1", "doc", "", ["A", "B", "I"], none, none⟩] =
      (HandlerResult.resp 200 "File processed successfully",
       [⟨"F1", "doc", "", ["I", "S", "O"], none, none⟩])
    ∧ ("I" ∈ (["I", "S", "O"] : List String))
    ∧ (["I", "S", "O"] : List String) ≠ ["O"]
    ∧ amplifyFunctionEvent ⟨true, true, true, true, true, true⟩ ⟨"I", "S", "O"⟩
        (.msg "F1") [⟨"F1", "doc", "", ["I"], none, none⟩] =
      (Except.ok (),
       [⟨"F1", "doc", "", ["S"], none, none⟩,
        ⟨"created-1", "doc", "", ["O"], none, none⟩])
    ∧ fileParents [⟨"F1", "doc", "", ["S"], none, none⟩,
        ⟨"created-1", "doc", "", ["O"], none, none⟩] "F1" = some ["S"] := by
  exact ⟨by rfl, by decide, by decide, by rfl, by rfl⟩

/-- Claim C1, amended: for handleRequest, a successful run on a file whose
parent list is a single folder ends with parent list exactly [Output], which
does not contain the Input folder whenever Input and Output differ; for the
CloudEvent AmplifyFunction, a successful run on a file whose parent list is
exactly [Input] leaves the original file with parents [Temp] and creates a
new file whose parent list is exactly [Output]. -/
theorem c1_amended :
    (∀ (f : MoverFaults) (env : MoverEnv) (fid p inputId : String)
        (st st' : DriveState),
      fileParents st fid = some [p] →
      inputId ≠ env.outputFolderId →
      handleRequest f env (.msg fid) st =
        (HandlerResult.resp 200 "File processed successfully", st') →
      fileParents st' fid = some [env.outputFolderId]
        ∧ inputId ∉ [env.outputFolderId])
    ∧ (∀ (f : EventFaults) (env : PipelineEnv) (fid : String) (st st' : DriveState),
      fileParents st fid = some [env.inputFolderId] →
      amplifyFunctionEvent f env (.msg fid) st = (Except.ok (), st') →
      fileParents st' fid = some [env.tempFolderId]
        ∧ st'.getLast?.map (fun g => g.parents) = some [env.outputFolderId]) := by
  constructor
  · intro f env fid p inputId st st' hp hio h200
    simp only [handleRequest] at h200
    by_cases he : env.tempFolderId = "" ∨ env.outputFolderId = ""
    · rw [if_pos he] at h200
      simp at h200
    · rw [if_neg he] at h200
      rcases h1 : moveFile f.get1 f.upd1 fid env.tempFolderId st with ⟨r1, st1⟩
      rw [h1] at h200
      cases r1 with
      | panicked m => simp at h200
      | err e => simp at h200
      | ok =>
        simp only [processFile] at h200
        rcases h2 : moveFile f.get2 f.upd2 fid env.outputFolderId st1 with ⟨r2, st2⟩
        rw [h2] at h200
        cases r2 with
        | panicked m => simp at h200
        | err e => simp at h200
        | ok =>
          simp only [Prod.mk.injEq] at h200
          have hst : st2 = st' := h200.2
          subst hst
          have hp1 := moveFile_ok_single hp h1
          have hp2 := moveFile_ok_single hp1 h2
          exact ⟨hp2, by simp [hio]⟩
  · intro f env fid st st' hp hok
    obtain ⟨file, hf, hpar⟩ := fileParents_some_inv hp
    have hmem : env.inputFolderId ∈ file.parents := by rw [hpar]; simp
    by_cases he : env.inputFolderId = "" ∨ env.tempFolderId = "" ∨ env.outputFolderId = ""
    · simp [amplifyFunctionEvent, he] at hok
    · cases hfl : f.list with
      | false => simp [amplifyFunctionEvent, he, hfl] at hok
      | true =>
        cases hfg : f.get with
        | false => simp [amplifyFunctionEvent, he, hfl, hfg] at hok
        | true =>
          rcases hmv : moveFileChecked f.mget f.mupd fid env.tempFolderId st
            with ⟨r1, st1⟩
          cases r1 with
          | error e =>
            simp [amplifyFunctionEvent, he, hfl, hfg, hf, hmem, hmv] at hok
          | ok uu =>
            cases uu
            cases hdl : f.dl with
            | false =>
              simp [amplifyFunctionEvent, he, hfl, hfg, hf, hmem, hmv,
                processFile, hdl] at hok
            | true =>
              cases hcr : f.cr with
              | false =>
                simp [amplifyFunctionEvent, he, hfl, hfg, hf, hmem, hmv,
                  processFile, hdl, hcr] at hok
              | true =>
                have hst : st' = filesCreateCall st1 file.name [env.outputFolderId] := by
                  simp [amplifyFunctionEvent, he, hfl, hfg, hf, hmem, hmv,
                    processFile, hdl, hcr] at hok
                  exact hok.symm
                subst hst
                have hp1 := moveFileChecked_ok_single hp hmv
                obtain ⟨file1, hf1, hpar1⟩ := fileParents_some_inv hp1
                constructor
                · unfold fileParents
                  rw [findFile_filesCreateCall_of_found hf1]
                  simp [hpar1]
                · unfold filesCreateCall
                  rw [List.getLast?_concat]
                  rfl

/-- Claim C1, witness for the amended theorem at concrete runs: a
single-parent file moved by handleRequest ends with parents [O], and a
successful CloudEvent run strands the original at [S] while the created copy
has parents [O]. -/
theorem c1_witness :
    fileParents [⟨"F1", "doc", "", ["I"], none, none⟩] "F1" = some ["I"]
    ∧ ("I" : String) ≠ "O"
    ∧ handleRequest ⟨true, true, true, true⟩ ⟨"S", "O"⟩ (.msg "F1")
        [⟨"F1", "doc", "", ["I"], none, none⟩] =
      (HandlerResult.resp 200 "File processed successfully",
       [⟨"F1", "doc", "", ["O"], none, none⟩])
    ∧ fileParents [⟨"F1", "doc", "", ["O"], none, none⟩] "F1" = some ["O"]
    ∧ ("I" ∉ (["O"] : List String))
    ∧ amplifyFunctionEvent ⟨true, true, true, true, true, true⟩ ⟨"I", "S", "O"⟩
        (.msg "F1") [⟨"F1", "doc", "", ["I"], none, none⟩] =
      (Except.ok (),
       [⟨"F1", "doc", "", ["S"], none, none⟩,
        ⟨"created-1", "doc", "", ["O"], none, none⟩])
    ∧ fileParents [⟨"F1", "doc", "", ["S"], none, none⟩,
        ⟨"created-1", "doc", "", ["O"], none, none⟩] "F1" = some ["S"]
    ∧ ([⟨"F1", "doc", "", ["S"], none, none⟩,
        ⟨"created-1", "doc", "", ["O"], none, none⟩] : DriveState).getLast?.map
          (fun g => g.parents) = some ["O"] := by
  refine ⟨by rfl, by decide, by rfl, ?_, by decide, by rfl, ?_, ?_⟩
  · exact (c1_amended.1 ⟨true, true, true, true⟩ ⟨"S", "O"⟩ "F1" "I" "I"
      [⟨"F1", "doc", "", ["I"], none, none⟩]
      [⟨"F1", "doc", "", ["O"], none, none⟩] (by rfl) (by decide) (by rfl)).1
  · exact (c1_amended.2 ⟨true, true, true, true, true, true⟩ ⟨"I", "S", "O"⟩ "F1"
      [⟨"F1", "doc", "", ["I"], none, none⟩]
      [⟨"F1", "doc", "", ["S"], none, none⟩,
       ⟨"created-1", "doc", "", ["O"], none, none⟩] (by rfl) (by rfl)).1
  · exact (c1_amended.2 ⟨true, true, true, true, true, true⟩ ⟨"I", "S", "O"⟩ "F1"
      [⟨"F1", "doc", "", ["I"], none, none⟩]
      [⟨"F1", "doc", "", ["S"], none, none⟩,
       ⟨"created-1", "doc", "", ["O"], none, none⟩] (by rfl) (by rfl)).2

/-- Claim C7, counterexample: the claim says every failing request is
answered with a 4xx or 500 error body.  A request naming a file whose parent
list is empty makes handleRequest panic (index out of range in moveFile);
the handler produces no 200 response and no 4xx or 500 response at all. -/
theorem c7_counterexample :
    handleRequest ⟨true, true, true, true⟩ ⟨"S", "O"⟩ (.msg "F0")
        [⟨"F0", "doc", "", [], none, none⟩] =
      (HandlerResult.panicked "runtime error: index out of range",
       [⟨"F0", "doc", "", [], none, none⟩]) := by
  rfl

/-- Claim C7, amended: every handleRequest outcome is the 200 response with
body "File processed successfully", or a 400 or 500 response with an error
body, or a panic; and the panic arises exactly from a file whose parent list
is empty (in which case the state is unchanged). -/
theorem c7_amended :
    (∀ (f : MoverFaults) (env : MoverEnv) (req : ReqBody) (st : DriveState),
      (handleRequest f env req st).1 =
          HandlerResult.resp 200 "File processed successfully"
      ∨ (∃ b, (handleRequest f env req st).1 = HandlerResult.resp 400 b)
      ∨ (∃ b, (handleRequest f env req st).1 = HandlerResult.resp 500 b)
      ∨ (∃ m, (handleRequest f env req st).1 = HandlerResult.panicked m))
    ∧ (∀ (f : MoverFaults) (env : MoverEnv) (req : ReqBody) (st st' : DriveState)
        (m : String),
      handleRequest f env req st = (HandlerResult.panicked m, st') →
      ∃ fid file, req = ReqBody.msg fid ∧ findFile st fid = some file
        ∧ file.parents = [] ∧ st' = st) := by
  constructor
  · intro f env req st
    cases req with
    | bad =>
      right; left
      exact ⟨"Bad Request", by simp [handleRequest]⟩
    | msg fid =>
      by_cases he : env.tempFolderId = "" ∨ env.outputFolderId = ""
      · right; right; left
        exact ⟨"Folder IDs are not set", by simp [handleRequest, he]⟩
      · rcases h1 : moveFile f.get1 f.upd1 fid env.tempFolderId st with ⟨r1, st1⟩
        cases r1 with
        | panicked m =>
          right; right; right
          exact ⟨m, by simp [handleRequest, he, h1]⟩
        | err e =>
          right; right; left
          exact ⟨"Failed to move file to temp folder: " ++ e,
            by simp [handleRequest, he, h1]⟩
        | ok =>
          rcases h2 : moveFile f.get2 f.upd2 fid env.outputFolderId st1 with ⟨r2, st2⟩
          cases r2 with
          | panicked m =>
            right; right; right
            exact ⟨m, by simp [handleRequest, he, h1, processFile, h2]⟩
          | err e =>
            right; right; left
            exact ⟨"Failed to move file to output folder: " ++ e,
              by simp [handleRequest, he, h1, processFile, h2]⟩
          | ok =>
            left
            simp [handleRequest, he, h1, processFile, h2]
  · intro f env req st st' m h
    cases req with
    | bad => simp [handleRequest] at h
    | msg fid =>
      by_cases he : env.tempFolderId = "" ∨ env.outputFolderId = ""
      · simp [handleRequest, he] at h
      · rcases h1 : moveFile f.get1 f.upd1 fid env.tempFolderId st with ⟨r1, st1⟩
        cases r1 with
        | panicked m1 =>
          have hh : HandlerResult.panicked m1 = HandlerResult.panicked m ∧ st1 = st' := by
            have h' := h
            simp only [handleRequest, he, if_false, h1] at h'
            exact ⟨congrArg Prod.fst h', congrArg Prod.snd h'⟩
          obtain ⟨hst1, file, hf, hpar⟩ := moveFile_panicked_inv h1
          exact ⟨fid, file, rfl, hf, hpar, by rw [← hh.2, hst1]⟩
        | err e =>
          simp [handleRequest, he, h1] at h
        | ok =>
          rcases h2 : moveFile f.get2 f.upd2 fid env.outputFolderId st1 with ⟨r2, st2⟩
          cases r2 with
          | panicked m2 =>
            obtain ⟨-, file1, hf1, hpar1⟩ := moveFile_panicked_inv h2
            obtain ⟨-, -, file, p, rest, hf, hpar, hst1⟩ := moveFile_ok_inv h1
            subst hst1
            rw [findFile_filesUpdateCall, hf] at hf1
            simp only [Option.map_some'] at hf1
            injection hf1 with hfe
            rw [← hfe] at hpar1
            simp only [] at hpar1
            exact absurd hpar1 (driveMovedParents_ne_nil _ _ _)
          | err e =>
            simp [handleRequest, he, h1, processFile, h2] at h
          | ok =>
            simp [handleRequest, he, h1, processFile, h2] at h

/-- Claim C7, witness for the amended theorem: the panic case at a concrete
empty-parent file. -/
theorem c7_witness :
    handleRequest ⟨true, true, true, true⟩ ⟨"S", "O"⟩ (.msg "F0")
        [⟨"F0", "doc", "", [], none, none⟩] =
      (HandlerResult.panicked "runtime error: index out of range",
       [⟨"F0", "doc", "", [], none, none⟩])
    ∧ (∃ fid file, ReqBody.msg "F0" = ReqBody.msg fid
        ∧ findFile [⟨"F0", "doc", "", [], none, none⟩] fid = some file
        ∧ file.parents = []
        ∧ ([⟨"F0", "doc", "", [], none, none⟩] : DriveState) =
            [⟨"F0", "doc", "", [], none, none⟩]) :=
  ⟨by rfl,
    c7_amended.2 ⟨true, true, true, true⟩ ⟨"S", "O"⟩ (.msg "F0")
      [⟨"F0", "doc", "", [], none, none⟩] [⟨"F0", "doc", "", [], none, none⟩]
      "runtime error: index out of range" (by rfl)⟩

lemma notificationsOf_flatMap_scan (now : Int) (l : List DriveFile) :
    notificationsOf (l.flatMap (scanFile now)) =
      (l.filter (fun g => fileRecent now g)).map
        (fun g => (⟨g.name, g.id⟩ : FileInfo)) := by
  induction l with
  | nil => rfl
  | cons f fs ih =>
    rw [List.flatMap_cons, List.filter_cons]
    unfold notificationsOf at ih ⊢
    rw [List.filterMap_append]
    by_cases hr : fileRecent now f = true
    · simp only [scanFile, hr, if_true, List.map_cons]
      rw [ih]
      rfl
    · have hr' : fileRecent now f = false := by
        cases hfr : fileRecent now f
        · rfl
        · exact absurd hfr hr
      simp only [scanFile, hr', Bool.false_eq_true, if_false, List.filterMap_nil,
        List.nil_append]
      exact ih

/-- Claim C8: in one poll-scan iteration over the monitored folder (the
listing returns the files whose parent set contains the folder), every listed
file whose created or modified time lies in the five-second window is
published exactly once as a notification carrying its name and identifier,
and every listed file outside the window is never published; the hypothesis
asks the listed name-identifier pairs to be distinct, as Drive identifiers
are. -/
theorem c8_poll_scan :
    ∀ (now : Int) (folderID : String) (st : DriveState) (f : DriveFile),
      ((filesInFolder st folderID).map
        (fun g => (⟨g.name, g.id⟩ : FileInfo))).Nodup →
      f ∈ filesInFolder st folderID →
      (fileRecent now f = true →
        (notificationsOf (listFiles true now folderID st)).count ⟨f.name, f.id⟩ = 1)
      ∧ (fileRecent now f = false →
        (notificationsOf (listFiles true now folderID st)).count ⟨f.name, f.id⟩ = 0) := by
  intro now folderID st f hnd hmem
  have h0 : notificationsOf (listFiles true now folderID st) =
      ((filesInFolder st folderID).filter (fun g => fileRecent now g)).map
        (fun g => (⟨g.name, g.id⟩ : FileInfo)) := by
    rw [← notificationsOf_flatMap_scan]
    rfl
  rw [h0]
  have hsub : List.Sublist
      (((filesInFolder st folderID).filter (fun g => fileRecent now g)).map
        (fun g => (⟨g.name, g.id⟩ : FileInfo)))
      ((filesInFolder st folderID).map (fun g => (⟨g.name, g.id⟩ : FileInfo))) :=
    List.Sublist.map _ (List.filter_sublist _)
  have hnd2 := List.Nodup.sublist hsub hnd
  constructor
  · intro hr
    have hmem2 : (⟨f.name, f.id⟩ : FileInfo) ∈
        ((filesInFolder st folderID).filter (fun g => fileRecent now g)).map
          (fun g => (⟨g.name, g.id⟩ : FileInfo)) :=
      List.mem_map_of_mem _ (List.mem_filter.mpr ⟨hmem, hr⟩)
    exact List.count_eq_one_of_mem hnd2 hmem2
  · intro hr
    apply List.count_eq_zero_of_not_mem
    intro hmm
    obtain ⟨g, hgfil, hginfo⟩ := List.mem_map.mp hmm
    obtain ⟨hgL, hgr⟩ := List.mem_filter.mp hgfil
    have hgf : g = f := List.inj_on_of_nodup_map hnd hgL hmem hginfo
    rw [hgf] at hgr
    rw [hgr] at hr
    exact Bool.true_eq_false.mp hr

/-- Claim C8, witness: a scan at time 100 over a folder holding a fresh file
N1 (modified at 97) and a stale file N2 (from time 10) publishes N1 exactly
once and N2 not at all. -/
theorem c8_witness :
    (((filesInFolder
        [⟨"N1", "new", "", ["M"], some 97, some 97⟩,
         ⟨"N2", "old", "", ["M"], some 10, some 10⟩] "M").map
        (fun g => (⟨g.name, g.id⟩ : FileInfo))).Nodup
    ∧ ⟨"N1", "new", "", ["M"], some 97, some 97⟩ ∈ filesInFolder
        [⟨"N1", "new", "", ["M"], some 97, some 97⟩,
         ⟨"N2", "old", "", ["M"], some 10, some 10⟩] "M"
    ∧ fileRecent 100 ⟨"N1", "new", "", ["M"], some 97, some 97⟩ = true
    ∧ (notificationsOf (listFiles true 100 "M"
        [⟨"N1", "new", "", ["M"], some 97, some 97⟩,
         ⟨"N2", "old", "", ["M"], some 10, some 10⟩])).count ⟨"new", "N1"⟩ = 1)
    ∧ (⟨"N2", "old", "", ["M"], some 10, some 10⟩ ∈ filesInFolder
        [⟨"N1", "new", "", ["M"], some 97, some 97⟩,
         ⟨"N2", "old", "", ["M"], some 10, some 10⟩] "M"
    ∧ fileRecent 100 ⟨"N2", "old", "", ["M"], some 10, some 10⟩ = false
    ∧ (notificationsOf (listFiles true 100 "M"
        [⟨"N1", "new", "", ["M"], some 97, some 97⟩,
         ⟨"N2", "old", "", ["M"], some 10, some 10⟩])).count ⟨"old", "N2"⟩ = 0) := by
  constructor
  · refine ⟨by decide, by decide, by decide, ?_⟩
    exact (c8_poll_scan 100 "M"
      [⟨"N1", "new", "", ["M"], some 97, some 97⟩,
       ⟨"N2", "old", "", ["M"], some 10, some 10⟩]
      ⟨"N1", "new", "", ["M"], some 97, some 97⟩ (by decide) (by decide)).1 (by decide)
  · refine ⟨by decide, by decide, ?_⟩
    exact (c8_poll_scan 100 "M"
      [⟨"N1", "new", "", ["M"], some 97, some 97⟩,
       ⟨"N2", "old", "", ["M"], some 10, some 10⟩]
      ⟨"N2", "old", "", ["M"], some 10, some 10⟩ (by decide) (by decide)).2 (by decide)

lemma applyTrace_flatMap_scan (now : Int) (l : List DriveFile) (st : DriveState) :
    applyTrace st (l.flatMap (scanFile now)) = st := by
  induction l with
  | nil => rfl
  | cons f fs ih =>
    rw [List.flatMap_cons]
    unfold applyTrace
    rw [List.foldl_append]
    have h1 : List.foldl applyCall st (scanFile now f) = st := by
      unfold scanFile
      by_cases hr : fileRecent now f = true
      · simp [hr, applyCall]
      · have hr' : fileRecent now f = false := by
          cases hfr : fileRecent now f
          · rfl
          · exact absurd hfr hr
        simp [hr']
    rw [h1]
    exact ih

/-- Claim C9: the Watcher never mutates the Drive state.  The relay push
handler of watcher.go, the publish push handler of main.go, and one poll-scan
iteration of listFiles emit traces containing only metadata reads and
notification sends, so replaying any of those traces against the Drive state
leaves every file record, in particular every parent set, unchanged. -/
theorem c9_no_mutation :
    ∀ (getOk postOk : Bool) (postStatus : Nat) (url : String) (req : PushReq)
      (listOk : Bool) (now : Int) (folderID : String) (st : DriveState),
      applyTrace st (relayHandler getOk postOk postStatus url req st).2 = st
      ∧ applyTrace st (mainPushHandler getOk req st).2 = st
      ∧ applyTrace st (listFiles listOk now folderID st) = st := by
  intro getOk postOk postStatus url req listOk now folderID st
  refine ⟨?_, ?_, ?_⟩
  · cases req with
    | bad => rfl
    | notif rid =>
      cases getOk with
      | false => simp [relayHandler, applyTrace, applyCall]
      | true =>
        cases hf : findFile st rid with
        | none => simp [relayHandler, hf, applyTrace, applyCall]
        | some file =>
          cases postOk with
          | false => simp [relayHandler, hf, applyTrace, applyCall]
          | true =>
            by_cases hs : postStatus = 200 <;>
              simp [relayHandler, hf, hs, applyTrace, applyCall]
  · cases req with
    | bad => rfl
    | notif rid =>
      cases getOk with
      | false => simp [mainPushHandler, applyTrace, applyCall]
      | true =>
        cases hf : findFile st rid with
        | none => simp [mainPushHandler, hf, applyTrace, applyCall]
        | some file =>
          by_cases hm : file.mimeType ∈ wordMimeTypes <;>
            simp [mainPushHandler, hf, hm, applyTrace, applyCall]
  · cases listOk with
    | false => rfl
    | true =>
      have h0 : applyTrace st (listFiles true now folderID st) =
          applyTrace st ((filesInFolder st folderID).flatMap (scanFile now)) := rfl
      rw [h0, applyTrace_flatMap_scan]

/-- Claim C10: the Pub/Sub watcher push handler publishes a message only for
Word documents: when the resolved file's MIME type is neither of the two Word
types the handler returns without publishing, and every published
notification comes from a resolved file whose MIME type is one of the two
Word types. -/
theorem c10_mime_filter :
    (∀ (getOk : Bool) (st : DriveState) (rid : String) (file : DriveFile),
      findFile st rid = some file →
      file.mimeType ∉ wordMimeTypes →
      notificationsOf (mainPushHandler getOk (.notif rid) st).2 = [])
    ∧ (∀ (getOk : Bool) (req : PushReq) (st : DriveState) (i : FileInfo),
      i ∈ notificationsOf (mainPushHandler getOk req st).2 →
      ∃ rid file, req = PushReq.notif rid ∧ findFile st rid = some file
        ∧ file.mimeType ∈ wordMimeTypes ∧ i = ⟨file.name, rid⟩) := by
  constructor
  · intro getOk st rid file hf hm
    cases getOk with
    | false => rfl
    | true => simp [mainPushHandler, hf, hm, notificationsOf]
  · intro getOk req st i hi
    cases req with
    | bad => simp [mainPushHandler, notificationsOf] at hi
    | notif rid =>
      cases getOk with
      | false => simp [mainPushHandler, notificationsOf] at hi
      | true =>
        cases hf : findFile st rid with
        | none => simp [mainPushHandler, hf, notificationsOf] at hi
        | some file =>
          by_cases hm : file.mimeType ∈ wordMimeTypes
          · have hi2 : i = (⟨file.name, rid⟩ : FileInfo) := by
              simp [mainPushHandler, hf, hm, notificationsOf] at hi
              exact hi
            exact ⟨rid, file, rfl, hf, hm, hi2⟩
          · simp [mainPushHandler, hf, hm, notificationsOf] at hi

/-- Claim C10, witness: a PDF file produces no publication; a msword file
does and the published info is traced back to its Word MIME type. -/
theorem c10_witness :
    (findFile [⟨"W2", "x.pdf", "application/pdf", ["M"], none, none⟩] "W2" =
        some ⟨"W2", "x.pdf", "application/pdf", ["M"], none, none⟩
    ∧ ("application/pdf" ∉ wordMimeTypes)
    ∧ notificationsOf (mainPushHandler true (.notif "W2")
        [⟨"W2", "x.pdf", "application/pdf", ["M"], none, none⟩]).2 = [])
    ∧ ((⟨"w.doc", "W1"⟩ : FileInfo) ∈ notificationsOf (mainPushHandler true (.notif "W1")
        [⟨"W1", "w.doc", "application/msword", ["M"], none, none⟩]).2
    ∧ ∃ rid file, PushReq.notif "W1" = PushReq.notif rid
        ∧ findFile [⟨"W1", "w.doc", "application/msword", ["M"], none, none⟩] rid
            = some file
        ∧ file.mimeType ∈ wordMimeTypes
        ∧ (⟨"w.doc", "W1"⟩ : FileInfo) = ⟨file.name, rid⟩) := by
  constructor
  · refine ⟨by rfl, by decide, ?_⟩
    exact c10_mime_filter.1 true [⟨"W2", "x.pdf", "application/pdf", ["M"], none, none⟩]
      "W2" ⟨"W2", "x.pdf", "application/pdf", ["M"], none, none⟩ (by rfl) (by decide)
  · refine ⟨by decide, ?_⟩
    exact c10_mime_filter.2 true (.notif "W1")
      [⟨"W1", "w.doc", "application/msword", ["M"], none, none⟩]
      ⟨"w.doc", "W1"⟩ (by decide)

end Amplify
